import Mathlib

/-!
Verification of the error-aggregation core of `src/error.rs` (a Discord bot's
error-report deduplication module).  The embedding below models:

* `hash` — SHA-256 fingerprinting of the backtrace bytes (the `sha2` crate
  call is embedded as a full executable SHA-256 over byte lists, FIPS 180-4);
* the `errors` table and the two SQL mutation paths of `handle_unexpected`
  (`UPDATE … RETURNING` and `INSERT … ON CONFLICT DO UPDATE … RETURNING`);
* the webhook sink (create / fetch / edit / delete of messages);
* `handle_unexpected` itself and `handle_traceback_button`.

Bytes are `Nat`s below 256, 32-bit words are `Nat`s reduced mod `2 ^ 32`,
database ids are `Nat` (the `u64 → i64 → u64` round-trip in the source is the
identity on snowflake ids, which are below `2 ^ 63`).  Failures and panics are
explicit: every fallible operation returns `Except RErr _`, with `.panik`
standing for a Rust panic (`unwrap` of `None` / out-of-bounds index).
-/

namespace ErrorRs

/-! ## SHA-256 over byte lists (the `sha2::Sha256` call in `hash`) -/

/-- The 32-bit truncation modulus. -/
def M32 : Nat := 2 ^ 32

/-- Right-rotate a 32-bit word by `n` bits. -/
def rotr32 (n x : Nat) : Nat :=
  (x >>> n ||| x <<< (32 - n)) % M32

/-- Bitwise complement of a 32-bit word. -/
def not32 (x : Nat) : Nat := x ^^^ (M32 - 1)

/-- SHA-256 `Ch` function. -/
def sha2ch (x y z : Nat) : Nat := (x &&& y) ^^^ (not32 x &&& z)

/-- SHA-256 `Maj` function. -/
def sha2maj (x y z : Nat) : Nat := (x &&& y) ^^^ (x &&& z) ^^^ (y &&& z)

/-- SHA-256 big sigma 0. -/
def bsig0 (x : Nat) : Nat := rotr32 2 x ^^^ rotr32 13 x ^^^ rotr32 22 x

/-- SHA-256 big sigma 1. -/
def bsig1 (x : Nat) : Nat := rotr32 6 x ^^^ rotr32 11 x ^^^ rotr32 25 x

/-- SHA-256 small sigma 0. -/
def ssig0 (x : Nat) : Nat := rotr32 7 x ^^^ rotr32 18 x ^^^ (x >>> 3)

/-- SHA-256 small sigma 1. -/
def ssig1 (x : Nat) : Nat := rotr32 17 x ^^^ rotr32 19 x ^^^ (x >>> 10)

/-- The 64 SHA-256 round constants. -/
def sha2K : List Nat :=
  [1116352408, 1899447441, 3049323471, 3921009573, 961987163, 1508970993,
   2453635748, 2870763221, 3624381080, 310598401, 607225278, 1426881987,
   1925078388, 2162078206, 2614888103, 3248222580, 3835390401, 4022224774,
   264347078, 604807628, 770255983, 1249150122, 1555081692, 1996064986,
   2554220882, 2821834349, 2952996808, 3210313671, 3336571891, 3584528711,
   113926993, 338241895, 666307205, 773529912, 1294757372, 1396182291,
   1695183700, 1986661051, 2177026350, 2456956037, 2730485921, 2820302411,
   3259730800, 3345764771, 3516065817, 3600352804, 4094571909, 275423344,
   430227734, 506948616, 659060556, 883997877, 958139571, 1322822218,
   1537002063, 1747873779, 1955562222, 2024104815, 2227730452, 2361852424,
   2428436474, 2756734187, 3204031479, 3329325298]

/-- The SHA-256 working state: eight 32-bit words. -/
structure Sha2State where
  a : Nat
  b : Nat
  c : Nat
  d : Nat
  e : Nat
  f : Nat
  g : Nat
  h : Nat
deriving DecidableEq

/-- The SHA-256 initial hash value. -/
def sha2H0 : Sha2State :=
  ⟨1779033703, 3144134277, 1013904242, 2773480762,
   1359893119, 2600822924, 528734635, 1541459225⟩

/-- One SHA-256 compression round with round constant `k` and schedule word `w`. -/
def sha2Round (s : Sha2State) (kw : Nat × Nat) : Sha2State :=
  let t1 := (s.h + bsig1 s.e + sha2ch s.e s.f s.g + kw.1 + kw.2) % M32
  let t2 := (bsig0 s.a + sha2maj s.a s.b s.c) % M32
  ⟨(t1 + t2) % M32, s.a, s.b, s.c, (s.d + t1) % M32, s.e, s.f, s.g⟩

/-- Read a big-endian 32-bit word from four bytes of a list (0 past the end). -/
def word32At (l : List Nat) (i : Nat) : Nat :=
  l.getD i 0 <<< 24 ||| l.getD (i + 1) 0 <<< 16 ||| l.getD (i + 2) 0 <<< 8 |||
    l.getD (i + 3) 0

/-- The 16 message-schedule words of one 64-byte block. -/
def blockWords (blk : List Nat) : Array Nat :=
  ((List.range 16).map fun i => word32At blk (4 * i)).toArray

/-- Extend the message schedule by one word. -/
def scheduleStep (w : Array Nat) : Array Nat :=
  let t := w.size
  w.push ((ssig1 (w.getD (t - 2) 0) + w.getD (t - 7) 0 +
           ssig0 (w.getD (t - 15) 0) + w.getD (t - 16) 0) % M32)

/-- The full 64-word message schedule of one block. -/
def sha2Schedule (blk : List Nat) : Array Nat :=
  (List.range 48).foldl (fun w _ => scheduleStep w) (blockWords blk)

/-- Compress one 64-byte block into the running hash state. -/
def sha2Compress (s : Sha2State) (blk : List Nat) : Sha2State :=
  let t := (sha2K.zip (sha2Schedule blk).toList).foldl sha2Round s
  ⟨(s.a + t.a) % M32, (s.b + t.b) % M32, (s.c + t.c) % M32, (s.d + t.d) % M32,
   (s.e + t.e) % M32, (s.f + t.f) % M32, (s.g + t.g) % M32, (s.h + t.h) % M32⟩

/-- SHA-256 padding for a message of `len` bytes: `0x80`, zeros to 56 mod 64,
then the bit length as 8 big-endian bytes. -/
def sha2Padding (len : Nat) : List Nat :=
  0x80 :: List.replicate ((119 - len % 64) % 64) 0 ++
    (List.range 8).map fun i => (8 * len) >>> (8 * (7 - i)) % 256

/-- Split a byte list into 64-byte blocks (structural recursion on a fuel
bound so the kernel can evaluate it; the fuel `l.length` always suffices). -/
def chunks64Aux : Nat → List Nat → List (List Nat)
  | 0, _ => []
  | _, [] => []
  | fuel + 1, x :: xs => (x :: xs).take 64 :: chunks64Aux fuel ((x :: xs).drop 64)

/-- Split a byte list into 64-byte blocks. -/
def chunks64 (l : List Nat) : List (List Nat) := chunks64Aux l.length l

/-- A 32-bit word as four big-endian bytes. -/
def word2bytes (w : Nat) : List Nat :=
  [w >>> 24 % 256, w >>> 16 % 256, w >>> 8 % 256, w % 256]

/-- The final state as the 32 digest bytes. -/
def digestBytes (s : Sha2State) : List Nat :=
  word2bytes s.a ++ word2bytes s.b ++ word2bytes s.c ++ word2bytes s.d ++
    word2bytes s.e ++ word2bytes s.f ++ word2bytes s.g ++ word2bytes s.h

/-- SHA-256 of a byte list (FIPS 180-4), as the 32 digest bytes. -/
def sha256 (data : List Nat) : List Nat :=
  digestBytes ((chunks64 (data ++ sha2Padding data.length)).foldl sha2Compress sha2H0)

/-- Embedding of `fn hash(data: &[u8]) -> Vec<u8>` of `src/error.rs`: the full SHA-256
digest of `data`, collected into a vector. -/
def hash (data : List Nat) : List Nat := sha256 data

/-- UTF-8 encoding of one code point. -/
def charBytes (n : Nat) : List Nat :=
  if n < 0x80 then [n]
  else if n < 0x800 then [0xC0 ||| n >>> 6, 0x80 ||| n &&& 0x3F]
  else if n < 0x10000 then
    [0xE0 ||| n >>> 12, 0x80 ||| n >>> 6 &&& 0x3F, 0x80 ||| n &&& 0x3F]
  else
    [0xF0 ||| n >>> 18, 0x80 ||| n >>> 12 &&& 0x3F, 0x80 ||| n >>> 6 &&& 0x3F,
     0x80 ||| n &&& 0x3F]

/-- The UTF-8 bytes of a string (`str::as_bytes` / `String::into_bytes`). -/
def strBytes (s : String) : List Nat := s.data.flatMap fun c => charBytes c.toNat

/-! ## Failures and panics -/

/-- A failure of one `report`/`retrieve` call: a database error, a sink
(webhook) error, or a Rust panic. -/
inductive RErr where
  | dbErr
  | sinkErr
  | panik
deriving DecidableEq

/-! ## The `errors` table and its two SQL mutation paths -/

/-- One row of the `errors` table:
`(traceback_hash, traceback, message_id, occurrences)`. -/
structure DbRow where
  traceback_hash : List Nat
  traceback : String
  message_id : Nat
  occurrences : Nat
deriving DecidableEq

/-- Embedding of `UPDATE errors SET occurrences = occurrences + 1 WHERE traceback_hash = $1
RETURNING message_id, occurrences`: increments every matching row and returns
the updated matching rows together with the new table. -/
def updateReturning (tbl : List DbRow) (th : List Nat) : List DbRow × List DbRow :=
  let tbl' := tbl.map fun r =>
    if r.traceback_hash = th then { r with occurrences := r.occurrences + 1 } else r
  (tbl'.filter fun r => r.traceback_hash = th, tbl')

/-- Embedding of `INSERT INTO errors(traceback_hash, traceback, message_id) VALUES($1,$2,$3)
ON CONFLICT (traceback_hash) DO UPDATE SET occurrences = errors.occurrences + 1
RETURNING errors.message_id`: on conflict increments the conflicting row,
otherwise inserts a fresh row.  The inserted row's `occurrences` column is not
listed in the INSERT; its value comes from the table schema, which is not part
of `src/` — Modelled from the spec: "`occurrence_count` … starts at 1", so the
schema default is 1. -/
def insertOnConflict (tbl : List DbRow) (th : List Nat) (tb : String) (mid : Nat) :
    List DbRow × List DbRow :=
  if tbl.any fun r => r.traceback_hash = th then
    let tbl' := tbl.map fun r =>
      if r.traceback_hash = th then { r with occurrences := r.occurrences + 1 } else r
    (tbl'.filter fun r => r.traceback_hash = th, tbl')
  else
    let row : DbRow := ⟨th, tb, mid, 1⟩
    ([row], tbl ++ [row])

/-- Embedding of `tokio_postgres::query_opt`: zero or one returned row, an error on more. -/
def queryOpt (rows : List DbRow) : Except RErr (Option DbRow) :=
  match rows with
  | [] => .ok none
  | [r] => .ok (some r)
  | _ => .error .dbErr

/-- Embedding of `tokio_postgres::query_one`: exactly one returned row, an error otherwise. -/
def queryOne (rows : List DbRow) : Except RErr DbRow :=
  match rows with
  | [r] => .ok r
  | _ => .error .dbErr

/-! ## The webhook sink (messages with embeds) -/

/-- An embed author (name plus optional icon URL). -/
structure Author where
  name : String
  icon_url : Option String
deriving DecidableEq

/-- The parts of a Discord embed this module reads or writes: title, ordered
(name, value, inline) fields, optional author, colour, optional footer text. -/
structure Embed where
  title : String
  fields : List (String × String × Bool)
  author : Option Author
  colour : Nat
  footer : Option String
deriving DecidableEq

/-- A message component button (label and custom id). -/
structure Button where
  label : String
  custom_id : String
deriving DecidableEq

/-- A webhook message: its id, embeds, and component buttons. -/
structure Message where
  id : Nat
  embeds : List Embed
  components : List Button
deriving DecidableEq

/-- Embedding of `Webhook::get_message`: fetch a message by id; a sink error if absent. -/
def getMessage (sink : List Message) (mid : Nat) : Except RErr Message :=
  match sink.find? fun m => m.id = mid with
  | some m => .ok m
  | none => .error .sinkErr

/-- Embedding of `Webhook::edit_message` with an `embeds` payload: replace the embeds of the
message with that id. -/
def editMessage (sink : List Message) (mid : Nat) (es : List Embed) : List Message :=
  sink.map fun m => if m.id = mid then { m with embeds := es } else m

/-- Embedding of `Webhook::delete_message`: remove the message with that id. -/
def deleteMessage (sink : List Message) (mid : Nat) : List Message :=
  sink.filter fun m => ¬ m.id = mid

/-! ## Inputs, environment and system state -/

/-- Modelled from the spec: the notification colour constant `RED` lives in
`constants.rs`, which is not under `src/`; no claim depends on its value. -/
def RED : Nat := 16711680

/-- Modelled from the spec: the button custom id `VIEW_TRACEBACK_CUSTOM_ID`
lives in `constants.rs`, which is not under `src/`; no claim depends on its
value. -/
def VIEW_TRACEBACK_CUSTOM_ID : String := "traceback"

/-- Ambient data read by `handle_unexpected` that is not part of the fault
itself: system metrics, shard count, the bot's user name, and whether the
orphan `delete_message` call will fail (failure injection for the sink). -/
structure Env where
  cpu_usage : String
  mem_usage : String
  shard_count : Nat
  bot_name : String
  deleteFails : Bool
deriving DecidableEq

/-- One fault report: the arguments of `handle_unexpected` (with
`error.backtrace().to_string()` and `error.to_string()` precomputed). -/
structure FaultInput where
  event : String
  traceback : String
  short_error : String
  extra_fields : List (String × String × Bool)
  author_name : Option String
  icon_url : Option String
deriving DecidableEq

/-- The system state one `report` call reads and writes: the `errors` table,
the webhook's messages, and the next fresh message id the sink will assign. -/
structure St where
  errors : List DbRow
  sink : List Message
  fresh : Nat
deriving DecidableEq

/-- The fingerprint `handle_unexpected` computes:
`hash(traceback.as_bytes())`. -/
def hashOf (inp : FaultInput) : List Nat := hash (strBytes inp.traceback)

/-- The footer text the increment path writes:
`format!("This error has occurred {} times!", occurrences)`. -/
def footerText (n : Nat) : String :=
  "This error has occurred " ++ toString n ++ " times!"

/-! ## The coordinator `handle_unexpected` -/

/-- Embedding of `blank_field()` of `src/error.rs`: a zero-width-space spacer field. -/
def blank_field : String × String × Bool := ("​", "​", true)

/-- The embed built in the create branch of `handle_unexpected`: before-fields,
the caller's extra fields and after-fields (each value wrapped in backticks
unless it is the zero-width-space spacer), the optional author, the fixed
first-occurrence footer, the short error as title, and the RED colour. -/
def mkErrorEmbed (env : Env) (inp : FaultInput) : Embed :=
  let before_fields := [("Event", inp.event, true), ("Bot User", env.bot_name, true),
    blank_field]
  let after_fields := [("CPU Usage (5 minutes)", env.cpu_usage, true),
    ("System Memory Usage", env.mem_usage, true),
    ("Shard Count", toString env.shard_count, true)]
  { title := inp.short_error
    fields := (before_fields ++ inp.extra_fields ++ after_fields).map fun f =>
      (f.1, if f.2.1 = "​" then f.2.1 else "`" ++ f.2.1 ++ "`", f.2.2)
    author := inp.author_name.map fun n => ⟨n, inp.icon_url⟩
    colour := RED
    footer := some "This error has occurred 1 time!" }

/-- The message the create branch publishes via `Webhook::execute`: one embed
and one "View Traceback" danger button, under the sink's next fresh id. -/
def mkErrorMessage (env : Env) (inp : FaultInput) (fresh : Nat) : Message :=
  ⟨fresh, [mkErrorEmbed env inp], [⟨"View Traceback", VIEW_TRACEBACK_CUSTOM_ID⟩]⟩

/-- The `else` arm of `handle_unexpected` (lines 73–142 of `src/error.rs`):
render and publish a new notification, run the
`INSERT … ON CONFLICT DO UPDATE … RETURNING` upsert with the new message id as
candidate, and if the store returns a different (pre-existing) message id,
delete the just-published orphan.  `th` is the traceback hash computed by the
caller; the table at this point may already hold a row for `th` written by a
concurrent reporter after the caller's UPDATE found none. -/
def createBranch (env : Env) (st : St) (inp : FaultInput) (th : List Nat) :
    Except RErr St :=
  let msg := mkErrorMessage env inp st.fresh
  let sink1 := st.sink ++ [msg]
  let ins := insertOnConflict st.errors th inp.traceback msg.id
  match queryOne ins.1 with
  | .error e => .error e
  | .ok row =>
    if msg.id = row.message_id then
      .ok ⟨ins.2, sink1, st.fresh + 1⟩
    else if env.deleteFails then
      .error .sinkErr
    else
      .ok ⟨ins.2, deleteMessage sink1 msg.id, st.fresh + 1⟩

/-- Embedding of `handle_unexpected` of `src/error.rs`: hash the backtrace, try the
`UPDATE … RETURNING` increment; on a hit fetch the stored message, rewrite the
footer of its first embed (panicking if the message has no embed or the embed
no footer) and push the edit; on a miss run the create branch. -/
def handle_unexpected (env : Env) (st : St) (inp : FaultInput) : Except RErr St :=
  let traceback_hash := hashOf inp
  let upd := updateReturning st.errors traceback_hash
  match queryOpt upd.1 with
  | .error e => .error e
  | .ok none => createBranch env st inp traceback_hash
  | .ok (some row) =>
    match getMessage st.sink row.message_id with
    | .error e => .error e
    | .ok msg =>
      match msg.embeds with
      | [] => .error .panik
      | e0 :: _ =>
        match e0.footer with
        | none => .error .panik
        | some _ =>
          let embed := { e0 with footer := some (footerText row.occurrences) }
          .ok ⟨upd.2, editMessage st.sink row.message_id [embed], st.fresh⟩

/-! ## The detail retriever `handle_traceback_button` -/

/-- The interaction response the retriever sends: either an attached file
(bytes plus filename) or a plain content string. -/
inductive Response where
  | file (data : List Nat) (filename : String)
  | content (text : String)
deriving DecidableEq

/-- Embedding of `handle_traceback_button` of `src/error.rs`:
`SELECT traceback FROM errors WHERE message_id = $1` via `query_opt`; on a hit
attach the traceback's bytes as `traceback.txt`, otherwise answer
"No traceback found.". -/
def handle_traceback_button (tbl : List DbRow) (mid : Nat) : Except RErr Response :=
  match queryOpt (tbl.filter fun r => r.message_id = mid) with
  | .error e => .error e
  | .ok (some row) => .ok (.file (strBytes row.traceback) "traceback.txt")
  | .ok none => .ok (.content "No traceback found.")

/-! ## Iterated reporting -/

/-- Iterate `n` successive `report` calls for the same fault, stopping at the first
failure. -/
def reportIter (env : Env) (inp : FaultInput) : Nat → St → Except RErr St
  | 0, st => .ok st
  | n + 1, st =>
    match handle_unexpected env st inp with
    | .ok st' => reportIter env inp n st'
    | .error e => .error e

/-- The empty initial state: no incidents, no messages, fresh id 0. -/
def st0 : St := ⟨[], [], 0⟩

/-! ## Frame projection for the store -/

/-- The immutable columns of a row: everything except `occurrences`. -/
def projKey (r : DbRow) : List Nat × String × Nat :=
  (r.traceback_hash, r.traceback, r.message_id)

/-- Incrementing the matching rows' `occurrences` leaves every immutable
column of every row unchanged. -/
theorem map_projKey_incr (tbl : List DbRow) (th : List Nat) :
    ((tbl.map fun r =>
        if r.traceback_hash = th then { r with occurrences := r.occurrences + 1 }
        else r).map projKey) = tbl.map projKey := by
  induction tbl with
  | nil => rfl
  | cons r rs ih =>
    simp only [List.map_cons, ih, List.cons.injEq, and_true]
    split <;> rfl

/-- C6: `hash` is the full untruncated SHA-256 digest of exactly the input
bytes — 32 bytes long — and identical inputs give identical output. -/
theorem c6_fingerprint (data : List Nat) :
    hash data = sha256 data ∧ (hash data).length = 32 ∧
      ∀ d2, d2 = data → hash d2 = hash data :=
  ⟨rfl, rfl, fun _ h => by rw [h]⟩

theorem c6_witness :
    hash (strBytes "abc") = sha256 (strBytes "abc") ∧
      (hash (strBytes "abc")).length = 32 ∧
      hash (strBytes "abc") = hash (strBytes "abc") :=
  ⟨(c6_fingerprint (strBytes "abc")).1, (c6_fingerprint (strBytes "abc")).2.1,
   (c6_fingerprint (strBytes "abc")).2.2 (strBytes "abc") rfl⟩

/-- The embedded SHA-256 reproduces the FIPS 180-4 test vector for "abc". -/
theorem sha256_vector_abc :
    sha256 (strBytes "abc") =
      [186, 120, 22, 191, 143, 1, 207, 234, 65, 65, 64, 222, 93, 174,
       34, 35, 176, 3, 97, 163, 150, 23, 122, 156, 180, 16, 255, 97,
       242, 0, 21, 173] := by decide

/-- C7: both store mutation paths touch only the `occurrences` column of
existing rows; the insert path appends exactly the new row when there is no
conflict. -/
theorem c7_store_frame (tbl : List DbRow) (th : List Nat) (tb : String) (mid : Nat) :
    ((updateReturning tbl th).2).map projKey = tbl.map projKey ∧
      ((insertOnConflict tbl th tb mid).2).map projKey =
        tbl.map projKey ++
          (if (tbl.any fun r => r.traceback_hash = th) = true then []
           else [(th, tb, mid)]) := by
  constructor
  · simpa [updateReturning] using map_projKey_incr tbl th
  · by_cases hc : (tbl.any fun r => r.traceback_hash = th) = true
    · simp only [insertOnConflict, hc, if_true, List.append_nil]
      exact map_projKey_incr tbl th
    · simp [insertOnConflict, hc, projKey]

/-- C8: when exactly one stored incident carries the queried notification id,
the retriever returns that incident's diagnostic bytes as `traceback.txt`. -/
theorem c8_retrieve (tbl : List DbRow) (mid : Nat) (r : DbRow)
    (hfind : (tbl.filter fun rr => rr.message_id = mid) = [r]) :
    handle_traceback_button tbl mid =
      .ok (.file (strBytes r.traceback) "traceback.txt") := by
  simp [handle_traceback_button, hfind, queryOpt]

theorem c8_witness :
    handle_traceback_button [⟨[1], "tb", 5, 1⟩] 5 =
      .ok (.file (strBytes "tb") "traceback.txt") :=
  c8_retrieve [⟨[1], "tb", 5, 1⟩] 5 ⟨[1], "tb", 5, 1⟩ (by decide)

/-- C9: when no stored incident carries the queried notification id, the
retriever succeeds with the "No traceback found." sentinel, not an error. -/
theorem c9_not_found (tbl : List DbRow) (mid : Nat)
    (hnone : (tbl.filter fun rr => rr.message_id = mid) = []) :
    handle_traceback_button tbl mid = .ok (.content "No traceback found.") := by
  simp [handle_traceback_button, hnone, queryOpt]

theorem c9_witness :
    handle_traceback_button [] 7 = .ok (.content "No traceback found.") :=
  c9_not_found [] 7 (by decide)

/-! ## The increment path -/

/-- The behaviour of `handle_unexpected` when the `UPDATE … RETURNING`
increment hits exactly one row whose message exists in the sink and carries a
footered first embed: the table is the incremented one, and the stored message
is edited to the single embed that differs from the fetched first embed only
in its footer, which now shows the returned occurrence count.  Nothing else
changes; in particular no message is created and the fresh id is untouched. -/
theorem updatePath_spec (env : Env) (st : St) (inp : FaultInput) (r : DbRow)
    (msg : Message) (e0 : Embed) (es : List Embed)
    (h1 : (updateReturning st.errors (hashOf inp)).1 = [r])
    (h2 : (st.sink.find? fun m => m.id = r.message_id) = some msg)
    (h3 : msg.embeds = e0 :: es)
    (h4 : e0.footer.isSome = true) :
    handle_unexpected env st inp =
      .ok ⟨(updateReturning st.errors (hashOf inp)).2,
        editMessage st.sink r.message_id
          [{ e0 with footer := some (footerText r.occurrences) }],
        st.fresh⟩ := by
  obtain ⟨f, hf⟩ := Option.isSome_iff_exists.mp h4
  simp only [handle_unexpected, h1, queryOpt, getMessage, h2, h3, hf]

/-- C4: on a hit, the coordinator edits the stored notification in place —
the pushed embed differs from the fetched first embed only in its footer text
(title, fields, author and colour are carried over unchanged), the new footer
shows the occurrence count the store returned, the message count of the sink
is unchanged (no new notification), and the fresh id is untouched. -/
theorem c4_increment_edits_footer_only (env : Env) (st : St) (inp : FaultInput)
    (r : DbRow) (msg : Message) (e0 : Embed) (es : List Embed)
    (h1 : (updateReturning st.errors (hashOf inp)).1 = [r])
    (h2 : (st.sink.find? fun m => m.id = r.message_id) = some msg)
    (h3 : msg.embeds = e0 :: es)
    (h4 : e0.footer.isSome = true) :
    handle_unexpected env st inp =
      .ok ⟨(updateReturning st.errors (hashOf inp)).2,
        editMessage st.sink r.message_id
          [{ e0 with footer := some (footerText r.occurrences) }],
        st.fresh⟩ ∧
      (editMessage st.sink r.message_id
          [{ e0 with footer := some (footerText r.occurrences) }]).length
        = st.sink.length :=
  ⟨updatePath_spec env st inp r msg e0 es h1 h2 h3 h4, by simp [editMessage]⟩

/-- A concrete environment for the closed witnesses. -/
def envW : Env := ⟨"0.5", "1024", 2, "BotUser", false⟩

/-- A concrete fault input for the closed witnesses. -/
def inpW : FaultInput :=
  ⟨"command", "boom", "oops", [("Guild", "g", true)], some "alice", none⟩

/-- A concrete sink message for the closed witnesses. -/
def msgW : Message := ⟨3, [mkErrorEmbed envW inpW], []⟩

/-- A concrete system state (one incident, one message) for the witnesses. -/
def stW : St := ⟨[⟨hashOf inpW, "boom", 3, 1⟩], [msgW], 4⟩

theorem c4_witness :
    handle_unexpected envW stW inpW =
      .ok ⟨(updateReturning stW.errors (hashOf inpW)).2,
        editMessage stW.sink 3
          [{ mkErrorEmbed envW inpW with footer := some (footerText 2) }], 4⟩ ∧
      (editMessage stW.sink 3
          [{ mkErrorEmbed envW inpW with footer := some (footerText 2) }]).length
        = stW.sink.length :=
  c4_increment_edits_footer_only envW stW inpW ⟨hashOf inpW, "boom", 3, 2⟩ msgW
    (mkErrorEmbed envW inpW) [] (by decide) (by decide) rfl rfl

/-- C5: the renderer gives every new notification the fixed footer
"This error has occurred 1 time!" (and the published message consists of
exactly that embed), and on a hit the coordinator rewrites the footer through
the sink edit, substituting the occurrence count the store returned. -/
theorem c5_footer_lifecycle (env : Env) (inp : FaultInput) :
    (mkErrorEmbed env inp).footer = some "This error has occurred 1 time!" ∧
      (∀ fid, (mkErrorMessage env inp fid).embeds = [mkErrorEmbed env inp]) ∧
      ∀ st r msg e0 es, (updateReturning st.errors (hashOf inp)).1 = [r] →
        (st.sink.find? fun m => m.id = r.message_id) = some msg →
        msg.embeds = e0 :: es → e0.footer.isSome = true →
        handle_unexpected env st inp =
          .ok ⟨(updateReturning st.errors (hashOf inp)).2,
            editMessage st.sink r.message_id
              [{ e0 with footer := some (footerText r.occurrences) }],
            st.fresh⟩ :=
  ⟨rfl, fun _ => rfl, fun st r msg e0 es h1 h2 h3 h4 =>
    updatePath_spec env st inp r msg e0 es h1 h2 h3 h4⟩

theorem c5_witness :
    (mkErrorEmbed envW inpW).footer = some "This error has occurred 1 time!" ∧
      (mkErrorMessage envW inpW 0).embeds = [mkErrorEmbed envW inpW] ∧
      handle_unexpected envW stW inpW =
        .ok ⟨(updateReturning stW.errors (hashOf inpW)).2,
          editMessage stW.sink 3
            [{ mkErrorEmbed envW inpW with footer := some (footerText 2) }], 4⟩ :=
  ⟨(c5_footer_lifecycle envW inpW).1, (c5_footer_lifecycle envW inpW).2.1 0,
    (c5_footer_lifecycle envW inpW).2.2 stW ⟨hashOf inpW, "boom", 3, 2⟩ msgW
      (mkErrorEmbed envW inpW) [] (by decide) (by decide) rfl rfl⟩

/-- C10: the increment path panics (rather than erring) when the fetched
message has no embed, or a first embed without footer; it is panic-free on the
messages this module itself publishes, which always consist of exactly one
embed bearing a footer. -/
theorem c10_panic_conditions (env : Env) (st : St) (inp : FaultInput) :
    (∀ r msg, (updateReturning st.errors (hashOf inp)).1 = [r] →
      (st.sink.find? fun m => m.id = r.message_id) = some msg →
      msg.embeds = [] →
      handle_unexpected env st inp = .error .panik) ∧
    (∀ r msg e0 es, (updateReturning st.errors (hashOf inp)).1 = [r] →
      (st.sink.find? fun m => m.id = r.message_id) = some msg →
      msg.embeds = e0 :: es → e0.footer = none →
      handle_unexpected env st inp = .error .panik) ∧
    ∀ fid, (mkErrorMessage env inp fid).embeds.length = 1 ∧
      ((mkErrorMessage env inp fid).embeds.all fun e => e.footer.isSome) = true := by
  refine ⟨fun r msg h1 h2 h3 => ?_, fun r msg e0 es h1 h2 h3 h4 => ?_,
    fun fid => ⟨rfl, rfl⟩⟩
  · simp only [handle_unexpected, h1, queryOpt, getMessage, h2, h3]
  · simp only [handle_unexpected, h1, queryOpt, getMessage, h2, h3, h4]

/-- A state whose stored message has no embeds, for the C10 witness. -/
def stP : St := ⟨[⟨hashOf inpW, "boom", 3, 1⟩], [⟨3, [], []⟩], 4⟩

theorem c10_witness :
    handle_unexpected envW stP inpW = .error .panik ∧
      (mkErrorMessage envW inpW 0).embeds.length = 1 ∧
      ((mkErrorMessage envW inpW 0).embeds.all fun e => e.footer.isSome) = true :=
  ⟨(c10_panic_conditions envW stP inpW).1 ⟨hashOf inpW, "boom", 3, 2⟩ ⟨3, [], []⟩
      (by decide) (by decide) rfl,
    (c10_panic_conditions envW stP inpW).2.2 0⟩

/-! ## The create branch and its race reconciliation -/

/-- When the upsert returns a single row whose message id differs from the
just-published candidate, the create branch either fails with the sink error
of the orphan delete, or succeeds having deleted the orphan. -/
theorem createBranch_conflict (env : Env) (st : St) (inp : FaultInput)
    (th : List Nat) (r : DbRow)
    (hr : (insertOnConflict st.errors th inp.traceback st.fresh).1 = [r])
    (hne : ¬ st.fresh = r.message_id) :
    createBranch env st inp th =
      if env.deleteFails then .error .sinkErr
      else .ok ⟨(insertOnConflict st.errors th inp.traceback st.fresh).2,
        deleteMessage (st.sink ++ [mkErrorMessage env inp st.fresh]) st.fresh,
        st.fresh + 1⟩ := by
  simp only [createBranch, mkErrorMessage, hr, queryOne, hne, if_false]

/-- Whatever the upsert returns is in the table it leaves behind. -/
theorem mem_insertOnConflict (tbl : List DbRow) (th : List Nat) (tb : String)
    (mid : Nat) (r : DbRow)
    (h : r ∈ (insertOnConflict tbl th tb mid).1) :
    r ∈ (insertOnConflict tbl th tb mid).2 := by
  unfold insertOnConflict at h ⊢
  by_cases hc : (tbl.any fun rr => rr.traceback_hash = th) = true
  · rw [if_pos hc] at h ⊢
    exact List.mem_of_mem_filter h
  · rw [if_neg hc] at h ⊢
    simp only [List.mem_singleton] at h
    subst h
    exact List.mem_append_right _ (List.mem_singleton_self _)

/-- C1 (as stated) is false: with a pre-existing incident for the hash and a
failing orphan delete, the create branch returns the sink error instead of
success. -/
theorem c1_counterexample :
    createBranch ⟨"", "", 0, "", true⟩ ⟨[⟨[1], "tb", 5, 1⟩], [], 0⟩
      ⟨"e", "tb", "se", [], none, none⟩ [1] = .error .sinkErr := rfl

/-- C1 amended: a failure of the reconciling orphan delete propagates — the
call returns the sink error — while the occurrence is already durably
recorded: the row the upsert returned (with the incremented count) is in the
post-upsert table. -/
theorem c1_amended_delete_failure_propagates (env : Env) (st : St)
    (inp : FaultInput) (th : List Nat) (r : DbRow)
    (hr : (insertOnConflict st.errors th inp.traceback st.fresh).1 = [r])
    (hne : ¬ st.fresh = r.message_id)
    (hdel : env.deleteFails = true) :
    createBranch env st inp th = .error .sinkErr ∧
      r ∈ (insertOnConflict st.errors th inp.traceback st.fresh).2 := by
  constructor
  · rw [createBranch_conflict env st inp th r hr hne, hdel, if_pos rfl]
  · exact mem_insertOnConflict st.errors th inp.traceback st.fresh r
      (by rw [hr]; exact List.mem_singleton_self r)

theorem c1_witness :
    createBranch ⟨"", "", 0, "", true⟩ ⟨[⟨[1], "tb", 5, 1⟩], [], 0⟩
        ⟨"e", "tb", "se", [], none, none⟩ [1] = .error .sinkErr ∧
      (⟨[1], "tb", 5, 2⟩ : DbRow) ∈
        (insertOnConflict [⟨[1], "tb", 5, 1⟩] [1] "tb" 0).2 :=
  c1_amended_delete_failure_propagates ⟨"", "", 0, "", true⟩
    ⟨[⟨[1], "tb", 5, 1⟩], [], 0⟩ ⟨"e", "tb", "se", [], none, none⟩ [1]
    ⟨[1], "tb", 5, 2⟩ (by decide) (by decide) rfl

/-- C3: when the store reveals a prior winner for the fingerprint, the create
branch deletes only its own just-published notification — the sink ends
exactly as it began, so no footer edit is pushed — and every surviving row for
the fingerprint is the store's returned row, keeping the pre-existing
notification reference. -/
theorem c3_lost_race_reconciles (env : Env) (st : St) (inp : FaultInput)
    (th : List Nat) (r : DbRow)
    (hconf : (st.errors.any fun rr => rr.traceback_hash = th) = true)
    (hr : (insertOnConflict st.errors th inp.traceback st.fresh).1 = [r])
    (hne : ¬ st.fresh = r.message_id)
    (hdel : env.deleteFails = false)
    (hfresh : ∀ m ∈ st.sink, ¬ m.id = st.fresh) :
    createBranch env st inp th =
      .ok ⟨(insertOnConflict st.errors th inp.traceback st.fresh).2, st.sink,
        st.fresh + 1⟩ ∧
      ∀ rr ∈ (insertOnConflict st.errors th inp.traceback st.fresh).2,
        rr.traceback_hash = th → rr = r := by
  constructor
  · rw [createBranch_conflict env st inp th r hr hne, hdel, if_neg (by simp)]
    have hdelmsg :
        deleteMessage (st.sink ++ [mkErrorMessage env inp st.fresh]) st.fresh
          = st.sink := by
      simp only [deleteMessage, List.filter_append]
      rw [List.filter_eq_self.mpr (fun m hm => by simpa using hfresh m hm)]
      simp [mkErrorMessage]
    rw [hdelmsg]
  · intro rr hmem hhash
    have h1 : rr ∈ (insertOnConflict st.errors th inp.traceback st.fresh).1 := by
      unfold insertOnConflict at hmem ⊢
      rw [if_pos hconf] at hmem ⊢
      simp only at hmem ⊢
      exact List.mem_filter.mpr ⟨hmem, by simpa using hhash⟩
    rw [hr] at h1
    exact List.mem_singleton.mp h1

/-- A pre-existing incident (message id 5) and an unrelated sink, for the C3
witness: the reporting call publishes under fresh id 9 and must reconcile. -/
def stC : St := ⟨[⟨[1], "tb", 5, 1⟩], [⟨5, [], []⟩], 9⟩

theorem c3_witness :
    createBranch envW stC ⟨"e", "tb", "se", [], none, none⟩ [1] =
      .ok ⟨(insertOnConflict stC.errors [1] "tb" 9).2, stC.sink, 10⟩ ∧
      ∀ rr ∈ (insertOnConflict stC.errors [1] "tb" 9).2,
        rr.traceback_hash = [1] → rr = (⟨[1], "tb", 5, 2⟩ : DbRow) :=
  c3_lost_race_reconciles envW stC ⟨"e", "tb", "se", [], none, none⟩ [1]
    ⟨[1], "tb", 5, 2⟩ (by decide) (by decide) (by decide) rfl (by decide)

/-! ## Occurrence counting over repeated reports -/

/-- The embed shown after the `n`-th report of the same fault: the rendered
embed at creation, then the same embed with only the footer rewritten. -/
def embedAfter (env : Env) (inp : FaultInput) : Nat → Embed
  | 0 => mkErrorEmbed env inp
  | 1 => mkErrorEmbed env inp
  | n + 2 => { mkErrorEmbed env inp with footer := some (footerText (n + 2)) }

/-- The system state after `n ≥ 1` reports of the same fault from the empty
state: one incident row with `occurrences = n` under message id 0, and that
one message in the sink. -/
def stateAfter (env : Env) (inp : FaultInput) (n : Nat) : St :=
  ⟨[⟨hashOf inp, inp.traceback, 0, n⟩],
   [⟨0, [embedAfter env inp n], [⟨"View Traceback", VIEW_TRACEBACK_CUSTOM_ID⟩]⟩],
   1⟩

/-- The first report from the empty state creates the incident with count 1
and publishes the rendered notification under message id 0. -/
theorem report_first (env : Env) (inp : FaultInput) :
    handle_unexpected env st0 inp = .ok (stateAfter env inp 1) := by
  simp only [handle_unexpected, st0, updateReturning, queryOpt, List.map_nil,
    List.filter_nil, createBranch, insertOnConflict, List.any_nil,
    Bool.false_eq_true, if_false, queryOne, mkErrorMessage]
  simp [stateAfter, embedAfter]

/-- Rewriting the footer of the embed shown after `n + 1` reports gives the
embed shown after `n + 2` reports. -/
theorem embedAfter_step (env : Env) (inp : FaultInput) (n : Nat) :
    { embedAfter env inp (n + 1) with footer := some (footerText (n + 2)) } =
      embedAfter env inp (n + 2) := by
  match n with
  | 0 => rfl
  | k + 1 => rfl

/-- Each further report of the same fault goes through the increment path and
bumps the count by one, rewriting only the footer. -/
theorem report_step (env : Env) (inp : FaultInput) (n : Nat) :
    handle_unexpected env (stateAfter env inp (n + 1)) inp =
      .ok (stateAfter env inp (n + 2)) := by
  have h4 : (embedAfter env inp (n + 1)).footer.isSome = true := by
    match n with
    | 0 => rfl
    | k + 1 => rfl
  have hspec := updatePath_spec env (stateAfter env inp (n + 1)) inp
    ⟨hashOf inp, inp.traceback, 0, n + 2⟩
    ⟨0, [embedAfter env inp (n + 1)],
      [⟨"View Traceback", VIEW_TRACEBACK_CUSTOM_ID⟩]⟩
    (embedAfter env inp (n + 1)) [] (by simp [stateAfter, updateReturning])
    (by simp [stateAfter]) rfl h4
  rw [hspec]
  simp only [stateAfter, updateReturning, editMessage, List.map_cons,
    List.map_nil]
  simp [embedAfter_step env inp n]

/-- Iterating reports from the state after `n + 1` of them adds `k` to the
count. -/
theorem reportIter_add (env : Env) (inp : FaultInput) (k : Nat) :
    ∀ n, reportIter env inp k (stateAfter env inp (n + 1)) =
      .ok (stateAfter env inp (n + 1 + k)) := by
  induction k with
  | zero => intro n; rfl
  | succ k ih =>
    intro n
    simp only [reportIter, report_step env inp n]
    have := ih (n + 1)
    rw [show n + 1 + 1 + k = n + 1 + (k + 1) by omega] at this
    exact this

/-- C2: `n ≥ 1` successful reports of faults with the same backtrace text,
starting from the empty state, leave exactly one incident row for the
fingerprint, whose `occurrences` is exactly `n`: the count starts at 1 at
creation (via the insert path) and each further call increments it exactly
once (via the increment path). -/
theorem c2_occurrence_count (env : Env) (inp : FaultInput) (n : Nat)
    (hn : 0 < n) :
    reportIter env inp n st0 = .ok (stateAfter env inp n) ∧
      (stateAfter env inp n).errors = [⟨hashOf inp, inp.traceback, 0, n⟩] := by
  refine ⟨?_, rfl⟩
  obtain ⟨m, rfl⟩ : ∃ m, n = m + 1 := ⟨n - 1, by omega⟩
  simp only [reportIter, report_first env inp]
  have := reportIter_add env inp m 0
  rw [show 0 + 1 + m = m + 1 by omega] at this
  exact this

theorem c2_witness :
    0 < 3 ∧ reportIter envW inpW 3 st0 = .ok (stateAfter envW inpW 3) :=
  ⟨by decide, (c2_occurrence_count envW inpW 3 (by decide)).1⟩

end ErrorRs
